import Mathlib

/-
Verification of the auto-responder core of the makima repository
(src/cogs/autoresponder.py): trigger store, pattern-keyed read-through
cache, matcher, filter pipeline and dispatcher.

The Python state (SQLite tables `triggers` and `logs`, plus the in-memory
`self.cache` dict) is embedded as an explicit `CogState` record threaded
through the operations.  The Python regex library (`re.search`, which the
repository calls but does not define) is abstracted as a compilation
function `String → Option (String → Bool)`: `none` models a pattern on
which `re` raises `re.error`, `some f` models a successfully compiled
pattern whose unanchored search is `f`.  `random.choice` over the
response list is abstracted as a selector parameter `sel`.
-/

set_option autoImplicit false

/-- Response payload, the tagged dict \x7btype, content\x7d stored (JSON-encoded)
in the `responses` column. -/
structure Response where
  rtype : String
  content : String
deriving DecidableEq

/-- One row of the `triggers` table, deserialized as in `get_trigger`
(autoresponder.py lines 60-75). -/
structure Trigger where
  id : Nat
  pattern : String
  match_type : String
  case_sensitive : Bool
  responses : List Response
  cooldown : Nat
  channels : List Nat
  roles : List Nat
  blacklist_users : List Nat
  whitelist_users : List Nat
  creator_id : Nat
  created_at : String
deriving DecidableEq

/-- One row of the `logs` table (the usage ledger). -/
structure LogRecord where
  trigger_id : Nat
  user_id : Nat
  channel_id : Nat
  timestamp : String
deriving DecidableEq

/-- The cog state: the `triggers` table (in insertion order), the `logs`
table (append-only), and the in-memory pattern-keyed cache dict. -/
structure CogState where
  db_triggers : List Trigger
  db_logs : List LogRecord
  cache : List (String × Trigger)
deriving DecidableEq

/-- Inbound message event.  `author_is_bot` is `message.author.bot`, the
field the dispatcher guard reads; `is_self` marks events authored by the
bot account itself (the spec field).  On the chat platform the bot own
account is a bot account, so `is_self = true` entails
`author_is_bot = true`; that fact is taken as a hypothesis where needed. -/
structure Message where
  content : String
  author_id : Nat
  author_is_bot : Bool
  is_self : Bool
  author_roles : List Nat
  channel_id : Nat
deriving DecidableEq

/-- A regex engine: compiling a pattern either fails (`none`, modelling
`re.error`) or yields the unanchored search function of the pattern. -/
def RegexEngine : Type := String → Option (String → Bool)

/-- Python `p.startswith(q)` on character lists (helper for substring). -/
def startsWithChars : List Char → List Char → Bool
  | _, [] => true
  | [], _ :: _ => false
  | a :: s, b :: p => a == b && startsWithChars s p

/-- Python `p in s` (contiguous substring test) on character lists. -/
def containsChars : List Char → List Char → Bool
  | [], p => p.isEmpty
  | a :: rest, p => startsWithChars (a :: rest) p || containsChars rest p

/-- Python `pattern in message_content`: `p` occurs as a contiguous
substring of `s`. -/
def containsSubstr (s p : String) : Bool :=
  containsChars s.data p.data

/-- match_trigger (autoresponder.py lines 227-246): lower-case both text
and pattern when `case_sensitive` is false, then dispatch on
`match_type`; a regex pattern that fails to compile is a non-match
(`except re.error: return False`); an unknown `match_type` is a
non-match. -/
def match_trigger (compile : RegexEngine) (t : Trigger) (message_content : String) : Bool :=
  let text := if t.case_sensitive then message_content else message_content.toLower
  let pat := if t.case_sensitive then t.pattern else t.pattern.toLower
  if t.match_type == "exact" then
    text == pat
  else if t.match_type == "partial" then
    containsSubstr text pat
  else if t.match_type == "regex" then
    match compile pat with
    | some search => search text
    | none => false
  else
    false

/-- get_trigger (autoresponder.py lines 51-78): check the in-memory dict
first; on a miss run `SELECT * FROM triggers WHERE pattern = ?` and take
the first row (`fetchone`); on a store hit insert into the dict before
returning; on a store miss return `None` without caching. -/
def get_trigger (s : CogState) (p : String) : Option Trigger × CogState :=
  match List.lookup p s.cache with
  | some t => (some t, s)
  | none =>
    match s.db_triggers.find? (fun t => t.pattern == p) with
    | some t => (some t, { s with cache := (p, t) :: s.cache })
    | none => (none, s)

/-- Row id assignment of the SQLite `INTEGER PRIMARY KEY` column:
one more than the largest id in the table. -/
def next_trigger_id (s : CogState) : Nat :=
  (s.db_triggers.map Trigger.id).foldr max 0 + 1

/-- The authoring payload built by `add_trigger` before persistence. -/
structure TriggerData where
  pattern : String
  match_type : String
  case_sensitive : Bool
  responses : List Response
  cooldown : Nat
  channels : List Nat
  roles : List Nat
  blacklist_users : List Nat
  whitelist_users : List Nat
deriving DecidableEq

/-- add_trigger_to_db (autoresponder.py lines 114-136): INSERT the row
with creator_id 1 and the current timestamp; no validation of any field. -/
def add_trigger_to_db (s : CogState) (d : TriggerData) (now : String) : CogState :=
  { s with db_triggers := s.db_triggers ++
      [{ id := next_trigger_id s
         pattern := d.pattern
         match_type := d.match_type
         case_sensitive := d.case_sensitive
         responses := d.responses
         cooldown := d.cooldown
         channels := d.channels
         roles := d.roles
         blacklist_users := d.blacklist_users
         whitelist_users := d.whitelist_users
         creator_id := 1
         created_at := now }] }

/-- add_trigger, the slash command (autoresponder.py lines 89-111): build
the trigger data (case_sensitive true, a single text response, cooldown
0), persist it unconditionally, and reply with a success message.  There
is no validation branch: every input reaches `add_trigger_to_db`. -/
def add_trigger (s : CogState) (pat response mt : String) (now : String) :
    CogState × String :=
  let trigger_data : TriggerData :=
    { pattern := pat
      match_type := mt
      case_sensitive := true
      responses := [{ rtype := "text", content := response }]
      cooldown := 0
      channels := []
      roles := []
      blacklist_users := []
      whitelist_users := [] }
  (add_trigger_to_db s trigger_data now,
   "Trigger " ++ pat ++ " added successfully!")

/-- delete_trigger (autoresponder.py lines 140-152): `DELETE FROM
triggers WHERE pattern = ?` removes every row with that pattern, then the
cache key is dropped if present; always replies with a success message. -/
def delete_trigger (s : CogState) (p : String) : CogState × String :=
  ({ s with
      db_triggers := s.db_triggers.filter (fun t => !(t.pattern == p))
      cache := s.cache.filter (fun kv => !(kv.1 == p)) },
   "Trigger " ++ p ++ " deleted successfully!")

/-- The channel-scope check of the filter pipeline: empty scope means all
channels, otherwise the message channel must be a member. -/
def channel_check (t : Trigger) (m : Message) : Bool :=
  t.channels.isEmpty || t.channels.contains m.channel_id

/-- The role-scope check: empty scope means all roles, otherwise some
author role must be a member. -/
def role_check (t : Trigger) (m : Message) : Bool :=
  t.roles.isEmpty || m.author_roles.any (fun r => t.roles.contains r)

/-- The blacklist check: the author must not be blacklisted. -/
def blacklist_check (t : Trigger) (m : Message) : Bool :=
  !(t.blacklist_users.contains m.author_id)

/-- The whitelist check: a non-empty whitelist admits only its members. -/
def whitelist_check (t : Trigger) (m : Message) : Bool :=
  t.whitelist_users.isEmpty || t.whitelist_users.contains m.author_id

/-- The filter pipeline as written in on_message (autoresponder.py lines
188-205): four sequential guards, each `continue` on failure, mirroring
Python truthiness of the empty list. -/
def passes_filters (t : Trigger) (m : Message) : Bool :=
  if !t.channels.isEmpty && !(t.channels.contains m.channel_id) then false
  else if !t.roles.isEmpty && !(m.author_roles.any (fun r => t.roles.contains r)) then false
  else if t.blacklist_users.contains m.author_id then false
  else if !t.whitelist_users.isEmpty && !(t.whitelist_users.contains m.author_id) then false
  else true

/-- One firing of the dispatcher loop: the trigger resolved through
`get_trigger` together with the response chosen from its response set. -/
structure Firing where
  trigger : Trigger
  response : Response
deriving DecidableEq

/-- The body of the on_message loop (autoresponder.py lines 180-225):
for each row of `SELECT * FROM triggers`, resolve the trigger through the
pattern-keyed `get_trigger` (which may mutate the cache), test the match
and the filter pipeline, and on success record a firing with the selected
response.  A `none` from `get_trigger` cannot occur when the iterated row
is present in the store; it is skipped here. -/
def fire_pass (compile : RegexEngine) (sel : List Response → Response)
    (m : Message) : List Trigger → CogState → CogState × List Firing
  | [], s => (s, [])
  | row :: rest, s =>
    let res := get_trigger s row.pattern
    match res.1 with
    | none => fire_pass compile sel m rest res.2
    | some t =>
      if !(match_trigger compile t m.content) then
        fire_pass compile sel m rest res.2
      else if !(passes_filters t m) then
        fire_pass compile sel m rest res.2
      else
        let r := sel t.responses
        let out := fire_pass compile sel m rest res.2
        (out.1, { trigger := t, response := r } :: out.2)

/-- on_message (autoresponder.py lines 175-225): return immediately on a
bot author; otherwise iterate all trigger rows, and for each firing
append one ledger row (trigger id, author, channel, timestamp) and emit
one response to the message channel, in loop order. -/
def on_message (compile : RegexEngine) (sel : List Response → Response)
    (now : String) (s : CogState) (m : Message) :
    CogState × List (Nat × Response) :=
  if m.author_is_bot then (s, [])
  else
    let out := fire_pass compile sel m s.db_triggers s
    ({ out.1 with db_logs := out.1.db_logs ++ out.2.map (fun f =>
        { trigger_id := f.trigger.id
          user_id := m.author_id
          channel_id := m.channel_id
          timestamp := now }) },
     out.2.map (fun f => (m.channel_id, f.response)))

/-- Cache coherence: every cache entry is keyed by the pattern of the
trigger it holds.  Holds of the empty cache and is preserved by every
operation, since `get_trigger` only inserts the row found by
`WHERE pattern = ?` under that same pattern. -/
def cache_coherent (s : CogState) : Bool :=
  s.cache.all (fun kv => kv.2.pattern == kv.1)

/-- A regex engine on which every pattern fails to compile (used to
instantiate theorems at concrete inputs where regex is irrelevant). -/
def cmp0 : RegexEngine := fun _ => none

/-- A concrete response selector: the head of the response list. -/
def sel0 : List Response → Response :=
  fun l => l.headD { rtype := "text", content := "" }

/-- The state with empty tables and empty cache. -/
def empty_state : CogState := ⟨[], [], []⟩

/-- Concrete exact-match trigger fixture. -/
def trigExact : Trigger :=
  ⟨1, "hello", "exact", true, [⟨"text", "hi"⟩], 0, [], [], [], [], 1, "t0"⟩

/-- Concrete trigger fixture whose pattern is an invalid regex. -/
def trigRegex : Trigger :=
  ⟨2, "(", "regex", true, [⟨"text", "r"⟩], 0, [], [], [], [], 1, "t0"⟩

/-- Concrete partial-match trigger fixture. -/
def trigPartial : Trigger :=
  ⟨3, "hello", "partial", true, [⟨"text", "p"⟩], 0, [], [], [], [], 1, "t0"⟩

/-- Concrete trigger fixture whose author 43 is both blacklisted and
whitelisted. -/
def trigBlack : Trigger :=
  ⟨4, "hey", "exact", true, [⟨"text", "b"⟩], 0, [], [], [43], [43], 1, "t0"⟩

/-- Concrete message from user 43 matching `trigBlack`. -/
def msg0 : Message := ⟨"hey", 43, false, false, [7], 5⟩

/-- Concrete message authored by the bot itself. -/
def msgSelf : Message := ⟨"hello", 99, true, true, [], 5⟩

/-- Fan-out fixture: partial trigger on "he". -/
def tw1 : Trigger :=
  ⟨1, "he", "partial", true, [⟨"text", "one"⟩], 0, [], [], [], [], 1, "t0"⟩

/-- Fan-out fixture: partial trigger on "lo". -/
def tw2 : Trigger :=
  ⟨2, "lo", "partial", true, [⟨"text", "two"⟩], 0, [], [], [], [], 1, "t0"⟩

/-- Duplicate-pattern fixture: a second trigger with the pattern of
`tw1` but a different id and response set. -/
def tw3 : Trigger :=
  ⟨9, "he", "partial", true, [⟨"text", "three"⟩], 0, [], [], [], [], 1, "t0"⟩

/-- Concrete non-bot message with content "hello" in channel 5. -/
def msgw : Message := ⟨"hello", 43, false, false, [], 5⟩

/-- Concrete state for the deletion witness: one stored trigger, cached. -/
def s6 : CogState := ⟨[trigExact], [], [("hello", trigExact)]⟩

/-! ## Substring semantics -/

/-- startsWithChars decides the prefix relation. -/
theorem startsWithChars_iff (p : List Char) : ∀ s : List Char,
    startsWithChars s p = true ↔ ∃ r, s = p ++ r := by
  induction p with
  | nil => intro s; simp [startsWithChars]
  | cons b p ih =>
    intro s
    cases s with
    | nil => simp [startsWithChars]
    | cons a s =>
      simp [startsWithChars, ih, List.cons_append, List.cons.injEq,
        Bool.and_eq_true, beq_iff_eq, exists_and_left]

/-- containsChars decides the contiguous-substring relation. -/
theorem containsChars_iff (p : List Char) : ∀ s : List Char,
    containsChars s p = true ↔ ∃ l r, s = l ++ p ++ r := by
  intro s
  induction s with
  | nil =>
    simp only [containsChars, List.isEmpty_iff]
    constructor
    · rintro rfl; exact ⟨[], [], rfl⟩
    · rintro ⟨l, r, h⟩
      rcases List.append_eq_nil.mp h.symm with ⟨h1, -⟩
      exact (List.append_eq_nil.mp h1).2
  | cons a rest ih =>
    simp only [containsChars, Bool.or_eq_true, startsWithChars_iff, ih]
    constructor
    · rintro (⟨r, hr⟩ | ⟨l, r, hr⟩)
      · exact ⟨[], r, by simpa using hr⟩
      · exact ⟨a :: l, r, by simp [hr]⟩
    · rintro ⟨l, r, hr⟩
      cases l with
      | nil => exact Or.inl ⟨r, by simpa using hr⟩
      | cons x l =>
        rcases List.cons.injEq .. ▸ hr with ⟨-, h2⟩
        exact Or.inr ⟨l, r, h2⟩

/-! ## Matcher claims -/

/-- C3: for every trigger with match_type exact and case_sensitive true
and every message text, match_trigger returns true iff the text equals
the pattern exactly. -/
theorem exact_case_sensitive_match_iff_eq (compile : RegexEngine) (t : Trigger)
    (text : String) (hmt : t.match_type = "exact") (hcs : t.case_sensitive = true) :
    match_trigger compile t text = true ↔ text = t.pattern := by
  simp [match_trigger, hmt, hcs]

/-- Witness for the exact-match claim at the concrete trigger
`trigExact` and text "hello". -/
theorem exact_case_sensitive_match_iff_eq_witness :
    trigExact.match_type = "exact" ∧ trigExact.case_sensitive = true ∧
      (match_trigger cmp0 trigExact "hello" = true ↔ "hello" = trigExact.pattern) :=
  ⟨rfl, rfl, exact_case_sensitive_match_iff_eq cmp0 trigExact "hello" rfl rfl⟩

/-- C4: a regex trigger whose (case-folded) pattern fails to compile
never matches any text.  The absence of an exception is reflected in
`match_trigger` being a total function into Bool: the `except re.error`
branch is the `none` case of the compilation result. -/
theorem invalid_regex_never_matches (compile : RegexEngine) (t : Trigger)
    (text : String) (hmt : t.match_type = "regex")
    (hbad : compile (if t.case_sensitive then t.pattern else t.pattern.toLower) = none) :
    match_trigger compile t text = false := by
  simp [match_trigger, hmt, hbad]

/-- Witness for the invalid-regex claim at the concrete trigger
`trigRegex` (pattern "(") under an engine rejecting every pattern. -/
theorem invalid_regex_never_matches_witness :
    trigRegex.match_type = "regex" ∧
      cmp0 (if trigRegex.case_sensitive then trigRegex.pattern
            else trigRegex.pattern.toLower) = none ∧
      match_trigger cmp0 trigRegex "anything" = false :=
  ⟨rfl, rfl, invalid_regex_never_matches cmp0 trigRegex "anything" rfl rfl⟩

/-- C8: a partial trigger matches iff the pattern (lower-cased first
when case_sensitive is false, compared as-is when true) occurs as a
contiguous substring of the (identically case-folded) text. -/
theorem partial_match_iff_substring (compile : RegexEngine) (t : Trigger)
    (text : String) (hmt : t.match_type = "partial") :
    (t.case_sensitive = true →
      (match_trigger compile t text = true ↔
        ∃ l r, text.data = l ++ t.pattern.data ++ r)) ∧
    (t.case_sensitive = false →
      (match_trigger compile t text = true ↔
        ∃ l r, text.toLower.data = l ++ t.pattern.toLower.data ++ r)) := by
  constructor <;> intro hcs <;>
    simp [match_trigger, hmt, hcs, containsSubstr, containsChars_iff]

/-- Witness for the partial-match claim: `trigPartial` (pattern "hello",
case-sensitive) against the text "say hello". -/
theorem partial_match_iff_substring_witness :
    trigPartial.match_type = "partial" ∧
      ((trigPartial.case_sensitive = true →
        (match_trigger cmp0 trigPartial "say hello" = true ↔
          ∃ l r, ("say hello").data = l ++ trigPartial.pattern.data ++ r)) ∧
       (trigPartial.case_sensitive = false →
        (match_trigger cmp0 trigPartial "say hello" = true ↔
          ∃ l r, ("say hello").toLower.data = l ++ trigPartial.pattern.toLower.data ++ r))) :=
  ⟨rfl, partial_match_iff_substring cmp0 trigPartial "say hello" rfl⟩

/-! ## Filter pipeline -/

/-- Boolean shape of the four-guard filter chain: the short-circuiting
if-chain equals a pure conjunction. -/
theorem guard_chain_eq_conjunction : ∀ a b c d e f g : Bool,
    (if !a && !b then false
     else if !c && !d then false
     else if e then false
     else if !f && !g then false
     else true) = ((a || b) && (c || d) && !e && (f || g)) := by
  decide

/-- C5: the filter pipeline outcome equals the logical AND of the four
individual checks, and a blacklisted author never passes, even when also
whitelisted. -/
theorem filter_pipeline_is_conjunction (t : Trigger) (m : Message) :
    passes_filters t m =
      (channel_check t m && role_check t m && blacklist_check t m && whitelist_check t m) ∧
    (t.blacklist_users.contains m.author_id = true → passes_filters t m = false) := by
  have h := guard_chain_eq_conjunction t.channels.isEmpty (t.channels.contains m.channel_id)
    t.roles.isEmpty (m.author_roles.any fun r => t.roles.contains r)
    (t.blacklist_users.contains m.author_id)
    t.whitelist_users.isEmpty (t.whitelist_users.contains m.author_id)
  constructor
  · exact h
  · intro hb
    exact h.trans (by rw [hb]; simp)

/-- Witness for the filter-pipeline claim: user 43 is in both the
blacklist and the whitelist of `trigBlack`, and the pipeline rejects. -/
theorem filter_pipeline_is_conjunction_witness :
    trigBlack.blacklist_users.contains msg0.author_id = true ∧
      trigBlack.whitelist_users.contains msg0.author_id = true ∧
      passes_filters trigBlack msg0 = false :=
  ⟨rfl, rfl, (filter_pipeline_is_conjunction trigBlack msg0).2 rfl⟩

/-! ## Dispatcher guard -/

/-- C9: an event authored by the bot itself is excluded before any
matching: no firing, no emission, no ledger row, state untouched.  The
code guards on `message.author.bot`; on the platform the bot own account
is a bot account, so `is_self` entails `author_is_bot` (hypothesis
`hbot`). -/
theorem self_message_excluded (compile : RegexEngine) (sel : List Response → Response)
    (now : String) (s : CogState) (m : Message)
    (hself : m.is_self = true) (hbot : m.is_self = true → m.author_is_bot = true) :
    on_message compile sel now s m = (s, []) := by
  simp [on_message, hbot hself]

/-- Witness for the self-message claim at the concrete message
`msgSelf` against the state `s6`. -/
theorem self_message_excluded_witness :
    msgSelf.is_self = true ∧ on_message cmp0 sel0 "t1" s6 msgSelf = (s6, []) :=
  ⟨rfl, self_message_excluded cmp0 sel0 "t1" s6 msgSelf rfl (fun _ => rfl)⟩

/-! ## Cache read-through -/

/-- C7: get_trigger is read-through.  On a cache hit the cached trigger
is returned and the state is untouched — the store is not consulted,
which the statement captures by holding for every store content `db`.
On a cache miss the store is queried (first row with the pattern); a
store hit is inserted into the cache before being returned; a store miss
returns none and caches nothing. -/
theorem cache_read_through (db : List Trigger) (logs : List LogRecord)
    (cache : List (String × Trigger)) (p : String) :
    (∀ t, List.lookup p cache = some t →
      get_trigger ⟨db, logs, cache⟩ p = (some t, ⟨db, logs, cache⟩)) ∧
    (List.lookup p cache = none →
      (∀ t, db.find? (fun tr => tr.pattern == p) = some t →
        get_trigger ⟨db, logs, cache⟩ p = (some t, ⟨db, logs, (p, t) :: cache⟩)) ∧
      (db.find? (fun tr => tr.pattern == p) = none →
        get_trigger ⟨db, logs, cache⟩ p = (none, ⟨db, logs, cache⟩))) := by
  refine ⟨fun t ht => ?_, fun hmiss => ⟨fun t ht => ?_, fun hnone => ?_⟩⟩ <;>
    simp [get_trigger, *]

/-- Witness for the read-through claim: a cache hit on "hello" returns
the cached trigger with the state unchanged. -/
theorem cache_read_through_witness :
    List.lookup "hello" [("hello", trigExact)] = some trigExact ∧
      get_trigger ⟨[], [], [("hello", trigExact)]⟩ "hello" =
        (some trigExact, ⟨[], [], [("hello", trigExact)]⟩) :=
  ⟨rfl, (cache_read_through [] [] [("hello", trigExact)] "hello").1 trigExact rfl⟩

/-! ## Trigger creation -/

/-- Refutation of the claimed creation-time validation: an empty pattern
is not rejected — add_trigger persists the trigger (pattern "", one text
response) and replies with the success message. -/
theorem add_trigger_accepts_empty_pattern :
    (add_trigger empty_state "" "hi" "exact" "t0").1.db_triggers =
      [{ id := 1, pattern := "", match_type := "exact", case_sensitive := true,
         responses := [{ rtype := "text", content := "hi" }], cooldown := 0,
         channels := [], roles := [], blacklist_users := [], whitelist_users := [],
         creator_id := 1, created_at := "t0" }] ∧
    (add_trigger empty_state "" "hi" "exact" "t0").2 =
      "Trigger  added successfully!" :=
  ⟨rfl, rfl⟩

/-- C2 amended: the trigger-creation operation performs no input
validation — every invocation, including one with an empty pattern,
persists exactly one new trigger; the persisted trigger carries the
given pattern and the singleton text-response list, which is non-empty,
so every trigger persisted through this surface has non-empty
responses. -/
theorem add_trigger_persists_unvalidated (s : CogState) (pat response mt now : String) :
    ∃ t : Trigger, (add_trigger s pat response mt now).1.db_triggers =
        s.db_triggers ++ [t] ∧
      t.pattern = pat ∧
      t.responses = [{ rtype := "text", content := response }] ∧
      t.responses ≠ [] := by
  refine ⟨_, rfl, rfl, rfl, ?_⟩
  simp

/-! ## Dispatcher fan-out -/

/-- C1: two triggers with distinct patterns that both match the same
message and both pass their filters both fire: the dispatcher emits two
responses and appends two ledger records — evaluation does not stop
after the first firing trigger. -/
theorem fanout_two_matching_triggers (compile : RegexEngine)
    (sel : List Response → Response) (now : String) (logs : List LogRecord)
    (t1 t2 : Trigger) (m : Message)
    (hbot : m.author_is_bot = false)
    (hne : t1.pattern ≠ t2.pattern)
    (hm1 : match_trigger compile t1 m.content = true)
    (hf1 : passes_filters t1 m = true)
    (hm2 : match_trigger compile t2 m.content = true)
    (hf2 : passes_filters t2 m = true) :
    on_message compile sel now ⟨[t1, t2], logs, []⟩ m =
      (⟨[t1, t2],
        logs ++
          [{ trigger_id := t1.id, user_id := m.author_id,
             channel_id := m.channel_id, timestamp := now },
           { trigger_id := t2.id, user_id := m.author_id,
             channel_id := m.channel_id, timestamp := now }],
        [(t2.pattern, t2), (t1.pattern, t1)]⟩,
       [(m.channel_id, sel t1.responses), (m.channel_id, sel t2.responses)]) := by
  have hne12 : (t1.pattern == t2.pattern) = false := beq_eq_false_iff_ne.mpr hne
  have hne21 : (t2.pattern == t1.pattern) = false :=
    beq_eq_false_iff_ne.mpr (Ne.symm hne)
  simp [on_message, fire_pass, get_trigger, hbot, hm1, hm2, hf1, hf2,
    hne12, hne21, List.lookup, List.find?]

/-- Witness for the fan-out claim: "he" and "lo" both partially match
"hello"; two responses, two ledger rows. -/
theorem fanout_two_matching_triggers_witness :
    msgw.author_is_bot = false ∧ tw1.pattern ≠ tw2.pattern ∧
      match_trigger cmp0 tw1 msgw.content = true ∧
      passes_filters tw1 msgw = true ∧
      match_trigger cmp0 tw2 msgw.content = true ∧
      passes_filters tw2 msgw = true ∧
      on_message cmp0 sel0 "t1" ⟨[tw1, tw2], [], []⟩ msgw =
        (⟨[tw1, tw2],
          [{ trigger_id := tw1.id, user_id := msgw.author_id,
             channel_id := msgw.channel_id, timestamp := "t1" },
           { trigger_id := tw2.id, user_id := msgw.author_id,
             channel_id := msgw.channel_id, timestamp := "t1" }],
          [(tw2.pattern, tw2), (tw1.pattern, tw1)]⟩,
         [(msgw.channel_id, sel0 tw1.responses), (msgw.channel_id, sel0 tw2.responses)]) :=
  ⟨rfl, by decide, by decide, by decide, by decide, by decide,
    fanout_two_matching_triggers cmp0 sel0 "t1" [] tw1 tw2 msgw rfl
      (by decide) (by decide) (by decide) (by decide) (by decide)⟩

/-- C10: when two persisted triggers share a pattern, the pattern-keyed
cache lookup resolves both loop iterations to the same single trigger
record — the first stored row.  Both ledger records carry that trigger
id and both responses are drawn from its response set; the second
trigger contributes nothing but its pattern (no hypothesis about its
responses or filters is needed). -/
theorem duplicate_pattern_fires_first_row (compile : RegexEngine)
    (sel : List Response → Response) (now : String) (logs : List LogRecord)
    (t1 t2 : Trigger) (m : Message)
    (hbot : m.author_is_bot = false)
    (heq : t2.pattern = t1.pattern)
    (hm1 : match_trigger compile t1 m.content = true)
    (hf1 : passes_filters t1 m = true) :
    on_message compile sel now ⟨[t1, t2], logs, []⟩ m =
      (⟨[t1, t2],
        logs ++
          [{ trigger_id := t1.id, user_id := m.author_id,
             channel_id := m.channel_id, timestamp := now },
           { trigger_id := t1.id, user_id := m.author_id,
             channel_id := m.channel_id, timestamp := now }],
        [(t1.pattern, t1)]⟩,
       [(m.channel_id, sel t1.responses), (m.channel_id, sel t1.responses)]) := by
  simp [on_message, fire_pass, get_trigger, hbot, hm1, hf1, heq,
    List.lookup, List.find?]

/-- Witness for the duplicate-pattern claim: `tw1` (id 1) and `tw3`
(id 9) share the pattern "he"; both firings use `tw1`. -/
theorem duplicate_pattern_fires_first_row_witness :
    msgw.author_is_bot = false ∧ tw3.pattern = tw1.pattern ∧
      match_trigger cmp0 tw1 msgw.content = true ∧
      passes_filters tw1 msgw = true ∧
      on_message cmp0 sel0 "t1" ⟨[tw1, tw3], [], []⟩ msgw =
        (⟨[tw1, tw3],
          [{ trigger_id := tw1.id, user_id := msgw.author_id,
             channel_id := msgw.channel_id, timestamp := "t1" },
           { trigger_id := tw1.id, user_id := msgw.author_id,
             channel_id := msgw.channel_id, timestamp := "t1" }],
          [(tw1.pattern, tw1)]⟩,
         [(msgw.channel_id, sel0 tw1.responses), (msgw.channel_id, sel0 tw1.responses)]) :=
  ⟨rfl, rfl, by decide, by decide,
    duplicate_pattern_fires_first_row cmp0 sel0 "t1" [] tw1 tw3 msgw rfl rfl
      (by decide) (by decide)⟩

/-! ## Deletion -/

/-- Looking up a key in a cache from which that key was just filtered
out misses. -/
theorem lookup_filter_self_none (p : String) (cache : List (String × Trigger)) :
    List.lookup p (cache.filter (fun kv => !(kv.1 == p))) = none := by
  induction cache with
  | nil => rfl
  | cons kv rest ih =>
    obtain ⟨k, v⟩ := kv
    by_cases h : k = p
    · subst h
      simp [List.filter_cons, ih]
    · have hk : (k == p) = false := beq_eq_false_iff_ne.mpr h
      have h2 : (p == k) = false := beq_eq_false_iff_ne.mpr (Ne.symm h)
      simp [List.filter_cons, hk, List.lookup, h2, ih]

/-- Searching the store for a pattern whose rows were just deleted
misses. -/
theorem find_filter_self_none (p : String) (db : List Trigger) :
    (db.filter (fun t => !(t.pattern == p))).find? (fun t => t.pattern == p) = none := by
  rw [List.find?_eq_none]
  intro x hx
  have h := (List.mem_filter.mp hx).2
  simp at h ⊢
  exact h

/-- In a coherent cache, a successful lookup returns a trigger whose
pattern is the looked-up key. -/
theorem lookup_some_pattern (p : String) (t : Trigger) :
    ∀ cache : List (String × Trigger),
      cache.all (fun kv => kv.2.pattern == kv.1) = true →
      List.lookup p cache = some t → t.pattern = p := by
  intro cache
  induction cache with
  | nil => intro _ h; simp [List.lookup] at h
  | cons kv rest ih =>
    obtain ⟨k, v⟩ := kv
    intro hall h
    rw [List.all_cons, Bool.and_eq_true] at hall
    obtain ⟨h1, h2⟩ := hall
    by_cases hk : (p == k) = true
    · have hv : v = t := by simpa [List.lookup, hk] using h
      have hp : v.pattern = k := by simpa using h1
      have hpk : p = k := by simpa using hk
      rw [← hv, hp, hpk]
    · have hk2 : (p == k) = false := by simpa using hk
      have h3 : List.lookup p rest = some t := by simpa [List.lookup, hk2] using h
      exact ih h2 h3

/-- On a coherent state, a trigger resolved through the pattern lookup
carries the looked-up pattern. -/
theorem get_trigger_fst_pattern (s : CogState) (p : String) (t : Trigger)
    (hco : cache_coherent s = true) (h : (get_trigger s p).1 = some t) :
    t.pattern = p := by
  unfold get_trigger at h
  cases hl : List.lookup p s.cache with
  | some t2 =>
    rw [hl] at h
    simp at h
    subst h
    exact lookup_some_pattern p t2 s.cache hco hl
  | none =>
    rw [hl] at h
    cases hf : s.db_triggers.find? (fun tr => tr.pattern == p) with
    | some t2 =>
      rw [hf] at h
      simp at h
      subst h
      simpa using List.find?_some hf
    | none =>
      rw [hf] at h
      simp at h

/-- get_trigger preserves cache coherence: a store hit is inserted under
its own pattern. -/
theorem get_trigger_snd_coherent (s : CogState) (p : String)
    (hco : cache_coherent s = true) : cache_coherent (get_trigger s p).2 = true := by
  unfold get_trigger
  cases hl : List.lookup p s.cache with
  | some t => simpa using hco
  | none =>
    cases hf : s.db_triggers.find? (fun tr => tr.pattern == p) with
    | some t =>
      have hp : t.pattern = p := by simpa using List.find?_some hf
      simp [cache_coherent, List.all_cons, hp]
      simpa [cache_coherent] using hco
    | none => simpa using hco

/-- Every firing of the dispatcher loop over `rows` on a coherent state
fires a trigger whose pattern is the pattern of one of the iterated
rows. -/
theorem fire_pass_mem_pattern (compile : RegexEngine)
    (sel : List Response → Response) (m : Message) (rows : List Trigger) :
    ∀ s : CogState, cache_coherent s = true →
      ∀ f ∈ (fire_pass compile sel m rows s).2,
        ∃ row ∈ rows, f.trigger.pattern = row.pattern := by
  induction rows with
  | nil =>
    intro s _ f hf
    simp [fire_pass] at hf
  | cons row rest ih =>
    intro s hco f hf
    have hco2 := get_trigger_snd_coherent s row.pattern hco
    simp only [fire_pass] at hf
    split at hf
    · obtain ⟨r, hr, he⟩ := ih _ hco2 f hf
      exact ⟨r, List.mem_cons_of_mem _ hr, he⟩
    · rename_i t hg
      split at hf
      · obtain ⟨r, hr, he⟩ := ih _ hco2 f hf
        exact ⟨r, List.mem_cons_of_mem _ hr, he⟩
      · split at hf
        · obtain ⟨r, hr, he⟩ := ih _ hco2 f hf
          exact ⟨r, List.mem_cons_of_mem _ hr, he⟩
        · simp only [List.mem_cons] at hf
          rcases hf with hf | hf
          · subst hf
            exact ⟨row, List.mem_cons_self .., get_trigger_fst_pattern s row.pattern t hco hg⟩
          · obtain ⟨r, hr, he⟩ := ih _ hco2 f hf
            exact ⟨r, List.mem_cons_of_mem _ hr, he⟩

/-- delete_trigger preserves cache coherence. -/
theorem delete_trigger_coherent (s : CogState) (p : String)
    (hco : cache_coherent s = true) :
    cache_coherent (delete_trigger s p).1 = true := by
  rw [cache_coherent, List.all_eq_true] at hco ⊢
  intro kv hkv
  exact hco kv (List.mem_filter.mp hkv).1

/-- C6: after delete(pattern), the trigger is gone from both store and
cache — a subsequent get_trigger for that pattern returns none, a
subsequent dispatcher pass fires no trigger with that pattern, and a
repeated delete of the same pattern is a no-op (idempotent, no error). -/
theorem delete_trigger_removes_everywhere (s : CogState) (p : String)
    (hco : cache_coherent s = true) :
    (get_trigger (delete_trigger s p).1 p).1 = none ∧
    (∀ (compile : RegexEngine) (sel : List Response → Response) (m : Message)
        (f : Firing),
      f ∈ (fire_pass compile sel m (delete_trigger s p).1.db_triggers
            (delete_trigger s p).1).2 →
      f.trigger.pattern ≠ p) ∧
    delete_trigger (delete_trigger s p).1 p = delete_trigger s p := by
  refine ⟨?_, ?_, ?_⟩
  · simp only [get_trigger, delete_trigger, lookup_filter_self_none, find_filter_self_none]
  · intro compile sel m f hf
    obtain ⟨row, hrow, he⟩ :=
      fire_pass_mem_pattern compile sel m _ _ (delete_trigger_coherent s p hco) f hf
    have h2 : row ∈ s.db_triggers ∧ ¬row.pattern = p := by
      simpa [delete_trigger] using hrow
    rw [he]
    exact h2.2
  · simp [delete_trigger, List.filter_filter]

/-- Witness for the deletion claim on the concrete state `s6` (one
stored trigger with pattern "hello", cached). -/
theorem delete_trigger_removes_everywhere_witness :
    cache_coherent s6 = true ∧
      (get_trigger (delete_trigger s6 "hello").1 "hello").1 = none ∧
      delete_trigger (delete_trigger s6 "hello").1 "hello" = delete_trigger s6 "hello" :=
  ⟨by decide,
   (delete_trigger_removes_everywhere s6 "hello" (by decide)).1,
   (delete_trigger_removes_everywhere s6 "hello" (by decide)).2.2⟩
